import Mathlib

/-!
Verification of the knowledge-base document versioning and rollback
mechanism of the content-automation repository.

The embedded code consists of:
* the `kb_documents` table row shape (schema in the SQL migration),
* the `update_updated_at_column` and `version_kb_document` BEFORE UPDATE
  triggers (SQL migration),
* the Next.js route handlers `POST /api/kb-documents` (create),
  `PATCH /api/kb-documents/[id]` (update), `DELETE /api/kb-documents/[id]`,
  and `POST /api/kb-documents/[id]/rollback`.

Timestamps are modelled as natural numbers; the JS request bodies are
modelled as structures of `Option` fields (`none` = field absent or
non-string/number, matching the JS falsy / typeof checks used by the
routes).
-/

/-- One entry of the `previous_versions` JSONB array: a snapshot
`{version, content_md, updated_at}` built by the trigger. -/
structure Snapshot where
  version : Nat
  content_md : String
  updated_at : Nat
deriving Repr, DecidableEq

/-- A row of the `kb_documents` table. -/
structure KbDocument where
  id : String
  workspace_id : String
  key : String
  title : String
  content_md : String
  version : Nat
  is_active : Bool
  previous_versions : List Snapshot
  created_at : Nat
  updated_at : Nat
deriving Repr, DecidableEq

/-- The snapshot the trigger builds from a row's current state:
`jsonb_build_object('version', OLD.version, 'content_md', OLD.content_md,
'updated_at', OLD.updated_at)`. -/
def snapshotOf (d : KbDocument) : Snapshot :=
  ⟨d.version, d.content_md, d.updated_at⟩

/-- The `version_kb_document` trigger (BEFORE UPDATE ON kb_documents).
If `OLD.content_md IS DISTINCT FROM NEW.content_md`, it prepends the
snapshot of OLD to `previous_versions`, sets `version = OLD.version + 1`,
and truncates `previous_versions` to its first 10 elements when it has
grown beyond 10. Otherwise NEW passes through unchanged. -/
def version_kb_document (old new : KbDocument) : KbDocument :=
  if old.content_md ≠ new.content_md then
    let hist := snapshotOf old :: old.previous_versions
    let hist := if hist.length > 10 then hist.take 10 else hist
    { new with previous_versions := hist, version := old.version + 1 }
  else new

/-- The `update_updated_at_column` trigger (BEFORE UPDATE):
`NEW.updated_at = NOW()`. -/
def update_updated_at_column (new : KbDocument) (now : Nat) : KbDocument :=
  { new with updated_at := now }

/-- The columns a `PATCH` may set (`updateData` in the route handler):
`title`, `content_md`, `is_active`; `none` encodes an absent field. -/
structure UpdatePatch where
  title : Option String
  content_md : Option String
  is_active : Option Bool
deriving Repr, DecidableEq

/-- A patch setting no column at all. -/
def UpdatePatch.empty : UpdatePatch := ⟨none, none, none⟩

/-- The SET clause of the UPDATE statement issued by the PATCH handler:
each column present in `updateData` overwrites the stored value, the
others keep their stored values. -/
def applySet (d : KbDocument) (p : UpdatePatch) : KbDocument :=
  { d with
    title := p.title.getD d.title
    content_md := p.content_md.getD d.content_md
    is_active := p.is_active.getD d.is_active }

/-- An UPDATE on a `kb_documents` row: the SET clause is applied, then the
BEFORE UPDATE triggers run in name order (`update_kb_documents_updated_at`
before `version_kb_document_trigger`), each rewriting NEW. -/
def updateKbDocument (d : KbDocument) (p : UpdatePatch) (now : Nat) : KbDocument :=
  version_kb_document d (update_updated_at_column (applySet d p) now)

/-- A freshly inserted row, as built by the create route together with the
column defaults of the schema: `version` defaults to 1 and
`previous_versions` to the empty array. -/
def createdDoc (id workspace_id key title content_md : String)
    (is_active : Bool) (now : Nat) : KbDocument :=
  { id := id, workspace_id := workspace_id, key := key, title := title
    content_md := content_md, version := 1, is_active := is_active
    previous_versions := [], created_at := now, updated_at := now }

/-- Outcome of a route handler: a JSON response that is either
`success: true` with data, or `success: false` with an HTTP status and an
error message. -/
inductive RouteResult (α : Type) where
  | success (data : α) : RouteResult α
  | failure (status : Nat) (error : String) : RouteResult α
deriving Repr, DecidableEq

/-- One interaction with the storage layer (a supabase query builder call
that reaches the database). -/
inductive StorageOp where
  | selectRows (table : String)
  | insertRow (table : String)
  | updateRows (table : String)
  | deleteRows (table : String)
deriving Repr, DecidableEq

/-- The `kb_documents` table content, one row per document. -/
abbrev KbStore := List KbDocument

/-- `select('*').eq('id', id).single()`: the first row with the given id. -/
def findById (s : KbStore) (id : String) : Option KbDocument :=
  s.find? (fun d => d.id == id)

/-- `update(p).eq('id', id)`: every row with the given id goes through the
SET clause and the BEFORE UPDATE triggers; other rows are untouched. -/
def storeUpdate (s : KbStore) (id : String) (p : UpdatePatch) (now : Nat) : KbStore :=
  s.map (fun d => if d.id == id then updateKbDocument d p now else d)

/-- `delete().eq('id', id)`: removes every row with the given id; deleting
zero rows is not an error. -/
def storeDelete (s : KbStore) (id : String) : KbStore :=
  s.filter (fun d => d.id != id)

/-- JS falsiness of an optional string field: `!x` is true when the field
is absent (`undefined`/`null`, modelled `none`) or the empty string. -/
def jsFalsy : Option String → Bool
  | none => true
  | some s => s.isEmpty

/-- Request body of `POST /api/kb-documents`; `none` encodes an absent
field. -/
structure CreateBody where
  workspace_id : Option String
  key : Option String
  title : Option String
  content_md : Option String
  is_active : Option Bool
deriving Repr, DecidableEq

/-- The unique-constraint check `UNIQUE (workspace_id, key)`: true when
some row already occupies the scope key the body asks for. -/
def scopeTaken (s : KbStore) (b : CreateBody) : Bool :=
  s.any (fun d => d.workspace_id == b.workspace_id.getD "" && d.key == b.key.getD "")

/-- `POST /api/kb-documents` (create). Validates `workspace_id`, `key`,
`title` by JS falsiness before any storage call; then inserts a row with
`content_md: content_md || ''`, `is_active` defaulting to `true`, and the
schema defaults `version = 1`, `previous_versions = []`. A unique
constraint violation (code 23505) becomes a 400 conflict response.
Returns (response, storage operations performed, resulting table). -/
def POST_create (s : KbStore) (b : CreateBody) (newId : String) (now : Nat) :
    RouteResult KbDocument × List StorageOp × KbStore :=
  if jsFalsy b.workspace_id || jsFalsy b.key || jsFalsy b.title then
    (.failure 400 "workspace_id, key, and title are required", [], s)
  else if scopeTaken s b then
    (.failure 400 "A document with this key already exists in this workspace",
      [.insertRow "kb_documents"], s)
  else
    let d := createdDoc newId (b.workspace_id.getD "") (b.key.getD "")
      (b.title.getD "") (b.content_md.getD "") (b.is_active.getD true) now
    (.success d, [.insertRow "kb_documents"], s ++ [d])

/-- Request body of `PATCH /api/kb-documents/[id]`. The handler
destructures only `title`, `content_md`, `is_active`; a caller may still
put other document fields in the JSON body, modelled here explicitly. -/
structure PatchBody where
  title : Option String
  content_md : Option String
  is_active : Option Bool
  id : Option String
  workspace_id : Option String
  key : Option String
  version : Option Nat
  previous_versions : Option (List Snapshot)
deriving Repr, DecidableEq

/-- The `updateData` object the PATCH handler builds: only `title`,
`content_md` and `is_active` are copied from the body. -/
def PATCH_updateData (b : PatchBody) : UpdatePatch :=
  ⟨b.title, b.content_md, b.is_active⟩

/-- `PATCH /api/kb-documents/[id]`: updates the row through the triggers
and returns the updated row, or 404 when `.single()` matches no row. -/
def PATCH_route (s : KbStore) (id : String) (b : PatchBody) (now : Nat) :
    RouteResult KbDocument × List StorageOp × KbStore :=
  let s2 := storeUpdate s id (PATCH_updateData b) now
  match findById s2 id with
  | none => (.failure 404 "row not found", [.updateRows "kb_documents"], s)
  | some d2 => (.success d2, [.updateRows "kb_documents"], s2)

/-- `POST /api/kb-documents/[id]/rollback`. The body's `version` is `none`
when `typeof version !== 'number'`; that is rejected with 400 before the
supabase client is even created. Otherwise the document is fetched, the
target snapshot looked up in `previous_versions` by exact version match,
and on success the document is updated with the snapshot's `content_md`
(the triggers then version the current content). -/
def POST_rollback (s : KbStore) (id : String) (version : Option Int) (now : Nat) :
    RouteResult KbDocument × List StorageOp × KbStore :=
  match version with
  | none => (.failure 400 "version number is required", [], s)
  | some v =>
    match findById s id with
    | none => (.failure 404 "Document not found", [.selectRows "kb_documents"], s)
    | some doc =>
      match doc.previous_versions.find? (fun sn => (sn.version : Int) == v) with
      | none => (.failure 404 "Version not found", [.selectRows "kb_documents"], s)
      | some target =>
        let s2 := storeUpdate s id ⟨none, some target.content_md, none⟩ now
        match findById s2 id with
        | none => (.failure 500 "update failed",
            [.selectRows "kb_documents", .updateRows "kb_documents"], s)
        | some d2 => (.success d2,
            [.selectRows "kb_documents", .updateRows "kb_documents"], s2)

/-- `DELETE /api/kb-documents/[id]`: unconditional delete; the route
reports success whenever the storage layer does not error, whether or not
any row matched. -/
def DELETE_route (s : KbStore) (id : String) :
    RouteResult Unit × List StorageOp × KbStore :=
  (.success (), [.deleteRows "kb_documents"], storeDelete s id)

/-- Run a sequence of PATCH-style updates (patch, timestamp) against one
document. Rollback is the special case where the patch carries a history
snapshot's content. -/
def runUpdates (d : KbDocument) (us : List (UpdatePatch × Nat)) : KbDocument :=
  us.foldl (fun d pu => updateKbDocument d pu.1 pu.2) d

/-- Whether an update call is content-changing for the document it hits:
the written `content_md` differs byte-for-byte from the stored one. -/
def isContentChanging (d : KbDocument) (p : UpdatePatch) : Bool :=
  p.content_md.getD d.content_md != d.content_md

/-- Number of content-changing updates in a run. -/
def countContentChanges (d : KbDocument) : List (UpdatePatch × Nat) → Nat
  | [] => 0
  | (p, t) :: rest =>
    (if isContentChanging d p then 1 else 0) +
      countContentChanges (updateKbDocument d p t) rest

/-- All prior states a run snapshots, newest first, without the
10-element cap: the full audit trail the bounded history is a prefix of. -/
def priorSnaps (d : KbDocument) : List (UpdatePatch × Nat) → List Snapshot
  | [] => []
  | (p, t) :: rest =>
    priorSnaps (updateKbDocument d p t) rest ++
      (if isContentChanging d p then [snapshotOf d] else [])

/-- Document states reachable through the persistence layer: freshly
created rows and any update (PATCH or rollback both go through
`updateKbDocument`). -/
inductive ReachableDoc : KbDocument → Prop
  | create : ∀ id wid key title content is_active now,
      ReachableDoc (createdDoc id wid key title content is_active now)
  | update : ∀ d p now, ReachableDoc d → ReachableDoc (updateKbDocument d p now)

/-- The document state reached by creating with content "A" (version 1),
updating to "B" (version 2), then updating back to "A" (version 3): its
history holds the entry `{version := 1, content_md := "A"}` while its
current content is again "A". -/
def rollbackNoopDoc : KbDocument :=
  updateKbDocument
    (updateKbDocument (createdDoc "d" "w" "tone_of_voice" "T" "A" true 0)
      ⟨none, some "B", none⟩ 1)
    ⟨none, some "A", none⟩ 2

/-! ### Basic lemmas about a single update -/

theorem id_updateKbDocument (d : KbDocument) (p : UpdatePatch) (now : Nat) :
    (updateKbDocument d p now).id = d.id := by
  unfold updateKbDocument version_kb_document update_updated_at_column applySet
  split <;> rfl

theorem workspace_id_updateKbDocument (d : KbDocument) (p : UpdatePatch) (now : Nat) :
    (updateKbDocument d p now).workspace_id = d.workspace_id := by
  unfold updateKbDocument version_kb_document update_updated_at_column applySet
  split <;> rfl

theorem key_updateKbDocument (d : KbDocument) (p : UpdatePatch) (now : Nat) :
    (updateKbDocument d p now).key = d.key := by
  unfold updateKbDocument version_kb_document update_updated_at_column applySet
  split <;> rfl

theorem created_at_updateKbDocument (d : KbDocument) (p : UpdatePatch) (now : Nat) :
    (updateKbDocument d p now).created_at = d.created_at := by
  unfold updateKbDocument version_kb_document update_updated_at_column applySet
  split <;> rfl

theorem updated_at_updateKbDocument (d : KbDocument) (p : UpdatePatch) (now : Nat) :
    (updateKbDocument d p now).updated_at = now := by
  unfold updateKbDocument version_kb_document update_updated_at_column applySet
  split <;> rfl

theorem content_md_updateKbDocument (d : KbDocument) (p : UpdatePatch) (now : Nat) :
    (updateKbDocument d p now).content_md = p.content_md.getD d.content_md := by
  unfold updateKbDocument version_kb_document update_updated_at_column applySet
  split <;> rfl

theorem version_updateKbDocument (d : KbDocument) (p : UpdatePatch) (now : Nat) :
    (updateKbDocument d p now).version =
      if isContentChanging d p then d.version + 1 else d.version := by
  unfold updateKbDocument version_kb_document update_updated_at_column applySet
    isContentChanging
  rcases p with ⟨t, c, a⟩
  cases c with
  | none => simp
  | some c =>
    simp only [Option.getD_some]
    by_cases h : d.content_md = c
    · simp [h]
    · simp [h, Ne.symm h, bne_iff_ne]

theorem history_updateKbDocument (d : KbDocument) (p : UpdatePatch) (now : Nat) :
    (updateKbDocument d p now).previous_versions =
      if isContentChanging d p then (snapshotOf d :: d.previous_versions).take 10
      else d.previous_versions := by
  unfold updateKbDocument version_kb_document update_updated_at_column applySet
    isContentChanging
  rcases p with ⟨t, c, a⟩
  cases c with
  | none => simp
  | some c =>
    simp only [Option.getD_some]
    by_cases h : d.content_md = c
    · simp [h]
    · have hlen : (snapshotOf d :: d.previous_versions).length ≤ 10 ∨
          10 < (snapshotOf d :: d.previous_versions).length := le_or_lt _ _
      simp only [h, Ne.symm h, bne_iff_ne, ne_eq, not_false_eq_true, if_true]
      rcases hlen with hle | hgt
      · simp [h, Nat.not_lt.mpr hle, List.take_of_length_le hle]
      · simp [h, hgt]

/-! ### Run-level lemmas -/

theorem take_append_take (n : Nat) (a b : List Snapshot) :
    (a ++ b.take n).take n = (a ++ b).take n := by
  rw [List.take_append_eq_append_take, List.take_append_eq_append_take,
    List.take_take, Nat.min_eq_left (Nat.sub_le n a.length)]

theorem runUpdates_nil (d : KbDocument) : runUpdates d [] = d := rfl

theorem runUpdates_cons (d : KbDocument) (p : UpdatePatch) (t : Nat)
    (rest : List (UpdatePatch × Nat)) :
    runUpdates d ((p, t) :: rest) = runUpdates (updateKbDocument d p t) rest := rfl

theorem version_runUpdates (us : List (UpdatePatch × Nat)) :
    ∀ d : KbDocument, (runUpdates d us).version = d.version + countContentChanges d us := by
  induction us with
  | nil => intro d; simp [runUpdates_nil, countContentChanges]
  | cons pu rest ih =>
    intro d
    rcases pu with ⟨p, t⟩
    rw [runUpdates_cons, ih, countContentChanges, version_updateKbDocument]
    by_cases h : isContentChanging d p
    · simp [h]; omega
    · simp [h]

theorem history_runUpdates (us : List (UpdatePatch × Nat)) :
    ∀ d : KbDocument, d.previous_versions.length ≤ 10 →
      (runUpdates d us).previous_versions =
        (priorSnaps d us ++ d.previous_versions).take 10 := by
  induction us with
  | nil =>
    intro d hlen
    rw [runUpdates_nil, priorSnaps, List.nil_append, List.take_of_length_le hlen]
  | cons pu rest ih =>
    intro d hlen
    rcases pu with ⟨p, t⟩
    rw [runUpdates_cons, priorSnaps]
    by_cases hc : isContentChanging d p
    · have hstep : (updateKbDocument d p t).previous_versions =
          (snapshotOf d :: d.previous_versions).take 10 := by
        rw [history_updateKbDocument]; simp [hc]
      have hlen2 : (updateKbDocument d p t).previous_versions.length ≤ 10 := by
        rw [hstep]; simp [Nat.min_le_left 10 _]
      rw [ih _ hlen2, hstep, take_append_take]
      simp [hc]
    · have hstep : (updateKbDocument d p t).previous_versions = d.previous_versions := by
        rw [history_updateKbDocument]; simp [hc]
      rw [ih _ (hstep ▸ hlen), hstep]
      simp [hc]

/-! ### Invariants over reachable document states -/

theorem history_length_le_ten (d : KbDocument) (h : ReachableDoc d) :
    d.previous_versions.length ≤ 10 := by
  induction h with
  | create id wid key title content is_active now => simp [createdDoc]
  | update d p now _ ih =>
    rw [history_updateKbDocument]
    by_cases hc : isContentChanging d p
    · simp [hc, Nat.min_le_left 10 _]
    · simpa [hc] using ih

theorem history_versions_lt (d : KbDocument) (h : ReachableDoc d) :
    ∀ sn ∈ d.previous_versions, sn.version < d.version := by
  induction h with
  | create id wid key title content is_active now => simp [createdDoc]
  | update d p now _ ih =>
    intro sn hsn
    rw [history_updateKbDocument] at hsn
    rw [version_updateKbDocument]
    by_cases hc : isContentChanging d p
    · simp only [hc, if_true] at hsn ⊢
      have hsn' : sn ∈ snapshotOf d :: d.previous_versions :=
        List.take_subset 10 _ hsn
      rcases List.mem_cons.mp hsn' with h1 | h2
      · rw [h1]; exact Nat.lt_succ_self _
      · exact Nat.lt_succ_of_lt (ih sn h2)
    · simp only [hc, if_false] at hsn ⊢
      exact ih sn hsn

/-! ### Store-level lemmas -/

theorem findById_storeUpdate (s : KbStore) (id : String) (p : UpdatePatch) (now : Nat) :
    findById (storeUpdate s id p now) id =
      (findById s id).map (fun d => updateKbDocument d p now) := by
  induction s with
  | nil => rfl
  | cons d rest ih =>
    by_cases h : d.id = id
    · simp [findById, storeUpdate, List.find?_cons, h, id_updateKbDocument]
    · have hne : (d.id == id) = false := beq_false_of_ne h
      simp only [findById, storeUpdate, List.map_cons] at ih ⊢
      rw [if_neg (by simp [hne])]
      rw [List.find?_cons_of_neg _ (by simp [hne]),
        List.find?_cons_of_neg _ (by simp [hne])]
      exact ih

/-! ### Claim theorems -/

/-- C1: a content-changing update sets `version = oldVersion + 1` and
prepends the snapshot `{version: oldVersion, content: oldContent,
updatedAt: oldUpdatedAt}` to the front of `history`; consequently, from a
freshly created document, after N successful content-changing updates
(rollbacks included) the version equals 1 + N. -/
theorem content_change_increments_version :
    (∀ (d : KbDocument) (p : UpdatePatch) (now : Nat) (c : String),
        p.content_md = some c → c ≠ d.content_md →
        (updateKbDocument d p now).version = d.version + 1 ∧
        (updateKbDocument d p now).previous_versions =
          (snapshotOf d :: d.previous_versions).take 10) ∧
    (∀ (id wid key title content : String) (act : Bool) (t0 : Nat)
        (us : List (UpdatePatch × Nat)),
        (runUpdates (createdDoc id wid key title content act t0) us).version =
          1 + countContentChanges (createdDoc id wid key title content act t0) us) := by
  constructor
  · intro d p now c hc hne
    have hch : isContentChanging d p = true := by
      simp [isContentChanging, hc, bne_iff_ne, hne]
    rw [version_updateKbDocument, history_updateKbDocument, hch]
    simp
  · intro id wid key title content act t0 us
    rw [version_runUpdates]
    simp [createdDoc, Nat.add_comm]

theorem content_change_increments_version_witness :
    (updateKbDocument (createdDoc "d" "w" "tone_of_voice" "T" "A" true 0)
        ⟨none, some "B", none⟩ 5).version =
      (createdDoc "d" "w" "tone_of_voice" "T" "A" true 0).version + 1 ∧
    (updateKbDocument (createdDoc "d" "w" "tone_of_voice" "T" "A" true 0)
        ⟨none, some "B", none⟩ 5).previous_versions =
      (snapshotOf (createdDoc "d" "w" "tone_of_voice" "T" "A" true 0) ::
        (createdDoc "d" "w" "tone_of_voice" "T" "A" true 0).previous_versions).take 10 :=
  content_change_increments_version.1
    (createdDoc "d" "w" "tone_of_voice" "T" "A" true 0)
    ⟨none, some "B", none⟩ 5 "B" rfl (by decide)

/-- C2: in every reachable document state `len(history) <= 10`, and after
any run of updates from a fresh document the history equals the first 10
entries of the full newest-first trail of prior states (so the oldest
entries beyond 10 are the ones dropped). -/
theorem bounded_history :
    (∀ d : KbDocument, ReachableDoc d → d.previous_versions.length ≤ 10) ∧
    (∀ (id wid key title content : String) (act : Bool) (t0 : Nat)
        (us : List (UpdatePatch × Nat)),
        (runUpdates (createdDoc id wid key title content act t0) us).previous_versions =
          (priorSnaps (createdDoc id wid key title content act t0) us).take 10) := by
  constructor
  · exact history_length_le_ten
  · intro id wid key title content act t0 us
    rw [history_runUpdates us _ (by simp [createdDoc])]
    simp [createdDoc]

theorem bounded_history_witness :
    (createdDoc "d" "w" "tone_of_voice" "T" "A" true 0).previous_versions.length ≤ 10 ∧
    (runUpdates (createdDoc "d" "w" "tone_of_voice" "T" "A" true 0)
        [(⟨none, some "B", none⟩, 1), (⟨none, some "C", none⟩, 2)]).previous_versions =
      (priorSnaps (createdDoc "d" "w" "tone_of_voice" "T" "A" true 0)
        [(⟨none, some "B", none⟩, 1), (⟨none, some "C", none⟩, 2)]).take 10 :=
  ⟨bounded_history.1 _ (ReachableDoc.create "d" "w" "tone_of_voice" "T" "A" true 0),
   bounded_history.2 "d" "w" "tone_of_voice" "T" "A" true 0
     [(⟨none, some "B", none⟩, 1), (⟨none, some "C", none⟩, 2)]⟩

/-- C7: in every reachable document state, every history entry's version is
strictly less than the current version, so history never holds the current
content/version pair. -/
theorem history_strictly_prior (d : KbDocument) (h : ReachableDoc d) :
    ∀ sn ∈ d.previous_versions,
      sn.version < d.version ∧
      ¬(sn.version = d.version ∧ sn.content_md = d.content_md) := by
  intro sn hsn
  have hlt := history_versions_lt d h sn hsn
  exact ⟨hlt, fun hpair => absurd hpair.1 (Nat.ne_of_lt hlt)⟩

theorem history_strictly_prior_witness :
    (⟨1, "A", 0⟩ : Snapshot).version <
      (updateKbDocument (createdDoc "d" "w" "tone_of_voice" "T" "A" true 0)
        ⟨none, some "B", none⟩ 5).version ∧
    ¬((⟨1, "A", 0⟩ : Snapshot).version =
        (updateKbDocument (createdDoc "d" "w" "tone_of_voice" "T" "A" true 0)
          ⟨none, some "B", none⟩ 5).version ∧
      (⟨1, "A", 0⟩ : Snapshot).content_md =
        (updateKbDocument (createdDoc "d" "w" "tone_of_voice" "T" "A" true 0)
          ⟨none, some "B", none⟩ 5).content_md) :=
  history_strictly_prior _
    (ReachableDoc.update _ ⟨none, some "B", none⟩ 5
      (ReachableDoc.create "d" "w" "tone_of_voice" "T" "A" true 0))
    ⟨1, "A", 0⟩ (by decide)

/-- C4: an update whose provided `content` equals the stored content leaves
`version` and `history` unchanged; a content-only such update changes
nothing but `updatedAt`; and `updatedAt` is refreshed on every update call,
content-changing or not. -/
theorem noop_update_on_unchanged_content :
    (∀ (d : KbDocument) (p : UpdatePatch) (now : Nat),
        p.content_md = some d.content_md →
        (updateKbDocument d p now).version = d.version ∧
        (updateKbDocument d p now).previous_versions = d.previous_versions) ∧
    (∀ (d : KbDocument) (now : Nat),
        updateKbDocument d ⟨none, some d.content_md, none⟩ now =
          { d with updated_at := now }) ∧
    (∀ (d : KbDocument) (p : UpdatePatch) (now : Nat),
        (updateKbDocument d p now).updated_at = now) := by
  refine ⟨?_, ?_, updated_at_updateKbDocument⟩
  · intro d p now hc
    have hch : isContentChanging d p = false := by
      simp [isContentChanging, hc]
    rw [version_updateKbDocument, history_updateKbDocument, hch]
    simp
  · intro d now
    simp [updateKbDocument, version_kb_document, update_updated_at_column, applySet]

theorem noop_update_on_unchanged_content_witness :
    (updateKbDocument (createdDoc "d" "w" "tone_of_voice" "T" "A" true 0)
        ⟨some "S", some "A", none⟩ 5).version =
      (createdDoc "d" "w" "tone_of_voice" "T" "A" true 0).version ∧
    (updateKbDocument (createdDoc "d" "w" "tone_of_voice" "T" "A" true 0)
        ⟨some "S", some "A", none⟩ 5).previous_versions =
      (createdDoc "d" "w" "tone_of_voice" "T" "A" true 0).previous_versions :=
  noop_update_on_unchanged_content.1
    (createdDoc "d" "w" "tone_of_voice" "T" "A" true 0) ⟨some "S", some "A", none⟩ 5 rfl

/-- C8: a create call missing `workspace_id`, `key` or `title`, and a
rollback call whose `version` is not a number, are rejected with a 400
validation response before any storage interaction: the trace of storage
operations is empty and the table is untouched. -/
theorem validation_rejected_before_storage :
    (∀ (s : KbStore) (b : CreateBody) (newId : String) (now : Nat),
        (jsFalsy b.workspace_id || jsFalsy b.key || jsFalsy b.title) = true →
        (POST_create s b newId now).1 =
          .failure 400 "workspace_id, key, and title are required" ∧
        (POST_create s b newId now).2.1 = [] ∧
        (POST_create s b newId now).2.2 = s) ∧
    (∀ (s : KbStore) (id : String) (now : Nat),
        (POST_rollback s id none now).1 = .failure 400 "version number is required" ∧
        (POST_rollback s id none now).2.1 = [] ∧
        (POST_rollback s id none now).2.2 = s) := by
  constructor
  · intro s b newId now h
    simp [POST_create, h]
  · intro s id now
    exact ⟨rfl, rfl, rfl⟩

theorem validation_rejected_before_storage_witness :
    ((POST_create [] ⟨none, some "tone_of_voice", some "T", none, none⟩ "d" 0).1 =
        .failure 400 "workspace_id, key, and title are required" ∧
      (POST_create [] ⟨none, some "tone_of_voice", some "T", none, none⟩ "d" 0).2.1 = [] ∧
      (POST_create [] ⟨none, some "tone_of_voice", some "T", none, none⟩ "d" 0).2.2 = []) ∧
    ((POST_rollback [] "d" none 0).1 = .failure 400 "version number is required" ∧
      (POST_rollback [] "d" none 0).2.1 = [] ∧
      (POST_rollback [] "d" none 0).2.2 = []) :=
  ⟨validation_rejected_before_storage.1 []
      ⟨none, some "tone_of_voice", some "T", none, none⟩ "d" 0 (by decide),
    validation_rejected_before_storage.2 [] "d" 0⟩

/-- C10: the delete route reports success for every id whenever the storage
layer itself does not error; deleting an unknown id does not fail with
NotFound and leaves the table unchanged. -/
theorem delete_unknown_id_succeeds :
    (∀ (s : KbStore) (id : String), (DELETE_route s id).1 = .success ()) ∧
    (∀ (s : KbStore) (id : String),
        (∀ d ∈ s, d.id ≠ id) → (DELETE_route s id).2.2 = s) := by
  constructor
  · intro s id; rfl
  · intro s id h
    show storeDelete s id = s
    unfold storeDelete
    rw [List.filter_eq_self.mpr]
    intro d hd
    simp [bne_iff_ne, h d hd]

theorem delete_unknown_id_succeeds_witness :
    (DELETE_route [createdDoc "d" "w" "tone_of_voice" "T" "A" true 0] "missing").1 =
      .success () ∧
    (DELETE_route [createdDoc "d" "w" "tone_of_voice" "T" "A" true 0] "missing").2.2 =
      [createdDoc "d" "w" "tone_of_voice" "T" "A" true 0] :=
  ⟨delete_unknown_id_succeeds.1 [createdDoc "d" "w" "tone_of_voice" "T" "A" true 0] "missing",
    delete_unknown_id_succeeds.2 [createdDoc "d" "w" "tone_of_voice" "T" "A" true 0] "missing"
      (by decide)⟩

/-- C5: a successful create initializes `version = 1` and `history = []`;
a second create with the same scope key (same `workspace_id` and `key`)
fails with the conflict response and leaves the table — in particular the
first document — unmodified. -/
theorem create_scope_unique :
    ∀ (s : KbStore) (b : CreateBody) (newId : String) (now : Nat),
      jsFalsy b.workspace_id = false → jsFalsy b.key = false → jsFalsy b.title = false →
      scopeTaken s b = false →
      ((POST_create s b newId now).1 =
          .success (createdDoc newId (b.workspace_id.getD "") (b.key.getD "")
            (b.title.getD "") (b.content_md.getD "") (b.is_active.getD true) now) ∧
        (createdDoc newId (b.workspace_id.getD "") (b.key.getD "")
          (b.title.getD "") (b.content_md.getD "") (b.is_active.getD true) now).version = 1 ∧
        (createdDoc newId (b.workspace_id.getD "") (b.key.getD "")
          (b.title.getD "") (b.content_md.getD "")
          (b.is_active.getD true) now).previous_versions = [] ∧
        (POST_create s b newId now).2.2 =
          s ++ [createdDoc newId (b.workspace_id.getD "") (b.key.getD "")
            (b.title.getD "") (b.content_md.getD "") (b.is_active.getD true) now]) ∧
      (∀ (b2 : CreateBody) (newId2 : String) (now2 : Nat),
        b2.workspace_id = b.workspace_id → b2.key = b.key → jsFalsy b2.title = false →
        (POST_create (POST_create s b newId now).2.2 b2 newId2 now2).1 =
          .failure 400 "A document with this key already exists in this workspace" ∧
        (POST_create (POST_create s b newId now).2.2 b2 newId2 now2).2.2 =
          (POST_create s b newId now).2.2) := by
  intro s b newId now hw hk ht hfree
  have hval : (jsFalsy b.workspace_id || jsFalsy b.key || jsFalsy b.title) = false := by
    simp [hw, hk, ht]
  have hfirst : POST_create s b newId now =
      (.success (createdDoc newId (b.workspace_id.getD "") (b.key.getD "")
          (b.title.getD "") (b.content_md.getD "") (b.is_active.getD true) now),
        [.insertRow "kb_documents"],
        s ++ [createdDoc newId (b.workspace_id.getD "") (b.key.getD "")
          (b.title.getD "") (b.content_md.getD "") (b.is_active.getD true) now]) := by
    unfold POST_create
    rw [if_neg (by simp [hval]), if_neg (by simp [hfree])]
  constructor
  · rw [hfirst]
    exact ⟨rfl, rfl, rfl, rfl⟩
  · intro b2 newId2 now2 hw2 hk2 ht2
    rw [hfirst]
    have htaken : scopeTaken
        (s ++ [createdDoc newId (b.workspace_id.getD "") (b.key.getD "")
          (b.title.getD "") (b.content_md.getD "") (b.is_active.getD true) now]) b2 = true := by
      unfold scopeTaken
      rw [List.any_append]
      simp [createdDoc, hw2, hk2]
    have hval2 : (jsFalsy b2.workspace_id || jsFalsy b2.key || jsFalsy b2.title) = false := by
      rw [hw2, hk2]
      simp [hw, hk, ht2]
    unfold POST_create
    rw [if_neg (by simp [hval2]), if_pos htaken]
    exact ⟨rfl, rfl⟩

theorem create_scope_unique_witness :
    ((POST_create [] ⟨some "w", some "tone_of_voice", some "T", some "A", none⟩ "d1" 0).1 =
        .success (createdDoc "d1" "w" "tone_of_voice" "T" "A" true 0) ∧
      (createdDoc "d1" "w" "tone_of_voice" "T" "A" true 0).version = 1 ∧
      (createdDoc "d1" "w" "tone_of_voice" "T" "A" true 0).previous_versions = [] ∧
      (POST_create [] ⟨some "w", some "tone_of_voice", some "T", some "A", none⟩ "d1" 0).2.2 =
        [] ++ [createdDoc "d1" "w" "tone_of_voice" "T" "A" true 0]) ∧
    (∀ (b2 : CreateBody) (newId2 : String) (now2 : Nat),
      b2.workspace_id = some "w" → b2.key = some "tone_of_voice" → jsFalsy b2.title = false →
      (POST_create
          (POST_create [] ⟨some "w", some "tone_of_voice", some "T", some "A", none⟩ "d1" 0).2.2
          b2 newId2 now2).1 =
        .failure 400 "A document with this key already exists in this workspace" ∧
      (POST_create
          (POST_create [] ⟨some "w", some "tone_of_voice", some "T", some "A", none⟩ "d1" 0).2.2
          b2 newId2 now2).2.2 =
        (POST_create [] ⟨some "w", some "tone_of_voice", some "T", some "A", none⟩ "d1" 0).2.2) :=
  create_scope_unique [] ⟨some "w", some "tone_of_voice", some "T", some "A", none⟩ "d1" 0
    rfl rfl rfl rfl

/-- C6: when the document exists but no history entry has the requested
target version, rollback fails with the 404 "Version not found" response
and the table — hence the document — is left completely unmodified. -/
theorem rollback_unknown_version_not_found :
    ∀ (s : KbStore) (id : String) (v : Int) (now : Nat) (d : KbDocument),
      findById s id = some d →
      (∀ sn ∈ d.previous_versions, (sn.version : Int) ≠ v) →
      (POST_rollback s id (some v) now).1 = .failure 404 "Version not found" ∧
      (POST_rollback s id (some v) now).2.2 = s := by
  intro s id v now d hd hnone
  have hfind : d.previous_versions.find? (fun sn => (sn.version : Int) == v) = none := by
    rw [List.find?_eq_none]
    intro sn hsn
    simp [hnone sn hsn]
  simp [POST_rollback, hd, hfind]

theorem rollback_unknown_version_not_found_witness :
    (POST_rollback
        [updateKbDocument (createdDoc "d" "w" "tone_of_voice" "T" "A" true 0)
          ⟨none, some "B", none⟩ 1] "d" (some 999) 2).1 =
      .failure 404 "Version not found" ∧
    (POST_rollback
        [updateKbDocument (createdDoc "d" "w" "tone_of_voice" "T" "A" true 0)
          ⟨none, some "B", none⟩ 1] "d" (some 999) 2).2.2 =
      [updateKbDocument (createdDoc "d" "w" "tone_of_voice" "T" "A" true 0)
        ⟨none, some "B", none⟩ 1] :=
  rollback_unknown_version_not_found _ "d" 999 2
    (updateKbDocument (createdDoc "d" "w" "tone_of_voice" "T" "A" true 0)
      ⟨none, some "B", none⟩ 1)
    (by decide) (by decide)

/-- C9: the PATCH handler copies only `title`, `content_md` and `is_active`
out of the request body — the route's outcome is independent of any other
field the caller supplies — and the updated row keeps its `id`,
`workspace_id` and `key`, while `version` and `history` are set only by the
snapshot-on-content-change trigger logic. -/
theorem patch_writes_only_allowed_fields :
    (∀ (s : KbStore) (id : String) (b : PatchBody) (now : Nat),
        PATCH_route s id b now =
          PATCH_route s id
            ⟨b.title, b.content_md, b.is_active, none, none, none, none, none⟩ now) ∧
    (∀ (s : KbStore) (id : String) (b : PatchBody) (now : Nat) (d : KbDocument),
        findById s id = some d →
        (PATCH_route s id b now).1 =
          .success (updateKbDocument d (PATCH_updateData b) now) ∧
        (updateKbDocument d (PATCH_updateData b) now).id = d.id ∧
        (updateKbDocument d (PATCH_updateData b) now).workspace_id = d.workspace_id ∧
        (updateKbDocument d (PATCH_updateData b) now).key = d.key ∧
        (updateKbDocument d (PATCH_updateData b) now).version =
          (if isContentChanging d (PATCH_updateData b) then d.version + 1 else d.version) ∧
        (updateKbDocument d (PATCH_updateData b) now).previous_versions =
          (if isContentChanging d (PATCH_updateData b)
            then (snapshotOf d :: d.previous_versions).take 10
            else d.previous_versions)) := by
  constructor
  · intro s id b now
    rfl
  · intro s id b now d hd
    have hroute : (PATCH_route s id b now).1 =
        .success (updateKbDocument d (PATCH_updateData b) now) := by
      simp [PATCH_route, findById_storeUpdate, hd]
    exact ⟨hroute, id_updateKbDocument d _ now, workspace_id_updateKbDocument d _ now,
      key_updateKbDocument d _ now, version_updateKbDocument d _ now,
      history_updateKbDocument d _ now⟩

theorem patch_writes_only_allowed_fields_witness :
    PATCH_route [createdDoc "d" "w" "tone_of_voice" "T" "A" true 0] "d"
        ⟨none, some "B", none, some "evil", some "w2", some "k2", some 99,
          some [⟨77, "Z", 9⟩]⟩ 5 =
      PATCH_route [createdDoc "d" "w" "tone_of_voice" "T" "A" true 0] "d"
        ⟨none, some "B", none, none, none, none, none, none⟩ 5 ∧
    (PATCH_route [createdDoc "d" "w" "tone_of_voice" "T" "A" true 0] "d"
        ⟨none, some "B", none, some "evil", some "w2", some "k2", some 99,
          some [⟨77, "Z", 9⟩]⟩ 5).1 =
      .success (updateKbDocument (createdDoc "d" "w" "tone_of_voice" "T" "A" true 0)
        (PATCH_updateData ⟨none, some "B", none, some "evil", some "w2", some "k2", some 99,
          some [⟨77, "Z", 9⟩]⟩) 5) :=
  ⟨patch_writes_only_allowed_fields.1 [createdDoc "d" "w" "tone_of_voice" "T" "A" true 0] "d"
      ⟨none, some "B", none, some "evil", some "w2", some "k2", some 99, some [⟨77, "Z", 9⟩]⟩ 5,
    (patch_writes_only_allowed_fields.2 [createdDoc "d" "w" "tone_of_voice" "T" "A" true 0] "d"
      ⟨none, some "B", none, some "evil", some "w2", some "k2", some 99, some [⟨77, "Z", 9⟩]⟩ 5
      (createdDoc "d" "w" "tone_of_voice" "T" "A" true 0) (by decide)).1⟩

/-- C3 counterexample: `rollbackNoopDoc` (version 3, content "A") has the
history entry `{version := 1, content_md := "A"}`; rolling back to
version 1 succeeds, yet the resulting document keeps version 3 — not
`currentVersion + 1 = 4` — and its history is not extended, because the
update the rollback issues writes content equal to the stored content and
the versioning trigger therefore does nothing. -/
theorem rollback_equal_content_keeps_version :
    rollbackNoopDoc.version = 3 ∧
    rollbackNoopDoc.content_md = "A" ∧
    (⟨1, "A", 0⟩ : Snapshot) ∈ rollbackNoopDoc.previous_versions ∧
    (POST_rollback [rollbackNoopDoc] "d" (some 1) 3).1 =
      .success { rollbackNoopDoc with updated_at := 3 } ∧
    ({ rollbackNoopDoc with updated_at := 3 } : KbDocument).version = 3 ∧
    ({ rollbackNoopDoc with updated_at := 3 } : KbDocument).previous_versions =
      rollbackNoopDoc.previous_versions := by
  refine ⟨rfl, rfl, by decide, by decide, rfl, rfl⟩

/-- C3 amended: a successful `rollback(id, v)` with target snapshot
`{version: v, content: X}` behaves exactly as `update(id, {content: X})`.
When `X` differs from the current content this yields `content == X`,
`version == currentVersion + 1` (not `v`), and the pre-rollback content
snapshotted into history, deleting no intermediate versions; when `X`
equals the current content the update is a no-op on version and history
(only `updatedAt` is refreshed) and no new version is created. -/
theorem rollback_fidelity :
    ∀ (s : KbStore) (id : String) (v : Int) (now : Nat) (d : KbDocument) (sn : Snapshot),
      findById s id = some d →
      d.previous_versions.find? (fun x => (x.version : Int) == v) = some sn →
      (POST_rollback s id (some v) now).1 =
        .success (updateKbDocument d ⟨none, some sn.content_md, none⟩ now) ∧
      (sn.content_md ≠ d.content_md →
        (updateKbDocument d ⟨none, some sn.content_md, none⟩ now).content_md =
          sn.content_md ∧
        (updateKbDocument d ⟨none, some sn.content_md, none⟩ now).version =
          d.version + 1 ∧
        (updateKbDocument d ⟨none, some sn.content_md, none⟩ now).previous_versions =
          (snapshotOf d :: d.previous_versions).take 10) ∧
      (sn.content_md = d.content_md →
        updateKbDocument d ⟨none, some sn.content_md, none⟩ now =
          { d with updated_at := now }) := by
  intro s id v now d sn hd hsn
  refine ⟨?_, ?_, ?_⟩
  · simp [POST_rollback, hd, hsn, findById_storeUpdate]
  · intro hne
    have hch : isContentChanging d ⟨none, some sn.content_md, none⟩ = true := by
      simp [isContentChanging, bne_iff_ne, hne]
    rw [content_md_updateKbDocument, version_updateKbDocument,
      history_updateKbDocument, hch]
    simp
  · intro heq
    rw [heq]
    exact noop_update_on_unchanged_content.2.1 d now

theorem rollback_fidelity_witness :
    (POST_rollback
        [updateKbDocument (createdDoc "d" "w" "tone_of_voice" "T" "A" true 0)
          ⟨none, some "B", none⟩ 1] "d" (some 1) 2).1 =
      .success (updateKbDocument
        (updateKbDocument (createdDoc "d" "w" "tone_of_voice" "T" "A" true 0)
          ⟨none, some "B", none⟩ 1)
        ⟨none, some "A", none⟩ 2) ∧
    (updateKbDocument
        (updateKbDocument (createdDoc "d" "w" "tone_of_voice" "T" "A" true 0)
          ⟨none, some "B", none⟩ 1)
        ⟨none, some "A", none⟩ 2).content_md = "A" ∧
    (updateKbDocument
        (updateKbDocument (createdDoc "d" "w" "tone_of_voice" "T" "A" true 0)
          ⟨none, some "B", none⟩ 1)
        ⟨none, some "A", none⟩ 2).version =
      (updateKbDocument (createdDoc "d" "w" "tone_of_voice" "T" "A" true 0)
        ⟨none, some "B", none⟩ 1).version + 1 :=
  have h := rollback_fidelity
    [updateKbDocument (createdDoc "d" "w" "tone_of_voice" "T" "A" true 0)
      ⟨none, some "B", none⟩ 1] "d" 1 2
    (updateKbDocument (createdDoc "d" "w" "tone_of_voice" "T" "A" true 0)
      ⟨none, some "B", none⟩ 1)
    ⟨1, "A", 0⟩ (by decide) (by decide)
  ⟨h.1, (h.2.1 (by decide)).1, (h.2.1 (by decide)).2.1⟩
